import Mathlib

/-
  Verification development for the meetai front-end repository.

  The repository contains: a responsive dialog selector (only its test file,
  responsive-dialog.test.tsx, is present in the snapshot; the component itself
  is modelled from the specification), the DashboardCommand component with its
  tests, and an agents Page component that prefetches data and renders a view
  inside suspense/error boundaries.

  Rendered React trees are embedded as a simple tree of elements with string
  attributes; the component mocks in the test files (which are part of the
  repository) fix the concrete shape each primitive renders to, so the mocks
  are translated literally.  Event callbacks are modelled as explicit
  functions returning either normal completion or a raised exception, and a
  click is modelled as the list of arguments the callback was invoked with
  together with the exception it propagated, if any.
-/

namespace MeetAI

/-- A rendered DOM node: a text node or an element with a tag, an attribute
list, and children. -/
inductive Node where
  | text (s : String)
  | element (tag : String) (attrs : List (String × String)) (children : List Node)

/-- Attribute value of a node, looked up by key (none for text nodes). -/
def attrVal (n : Node) (k : String) : Option String :=
  match n with
  | .text _ => none
  | .element _ attrs _ => attrs.lookup k

/-- The data-testid attribute of a node. -/
def rootTestId (n : Node) : Option String :=
  attrVal n "data-testid"

/-- Children of a node (empty for text nodes). -/
def nodeChildren : Node → List Node
  | .text _ => []
  | .element _ _ cs => cs

mutual

/-- Number of nodes in a tree carrying a given data-testid. -/
def countTestId (tid : String) : Node → Nat
  | .text _ => 0
  | .element _ attrs cs =>
      (if attrs.lookup "data-testid" = some tid then 1 else 0) + countTestIdL tid cs

/-- Number of nodes in a forest carrying a given data-testid. -/
def countTestIdL (tid : String) : List Node → Nat
  | [] => 0
  | c :: cs => countTestId tid c + countTestIdL tid cs

end

mutual

/-- First node in a tree (preorder) carrying a given data-testid. -/
def findTestId (tid : String) : Node → Option Node
  | .text s =>
      let _ := s
      none
  | .element tag attrs cs =>
      if attrs.lookup "data-testid" = some tid then some (.element tag attrs cs)
      else findTestIdL tid cs

/-- First node in a forest (preorder) carrying a given data-testid. -/
def findTestIdL (tid : String) : List Node → Option Node
  | [] => none
  | c :: cs =>
      match findTestId tid c with
      | some n => some n
      | none => findTestIdL tid cs

end

mutual

/-- All nodes in a tree (preorder) carrying a given data-testid.  A node that
matches is collected and its subtree is not searched further, mirroring how
the tests select mocked components. -/
def collectTestId (tid : String) : Node → List Node
  | .text _ => []
  | .element tag attrs cs =>
      if attrs.lookup "data-testid" = some tid then [.element tag attrs cs]
      else collectTestIdL tid cs

/-- All nodes in a forest (preorder) carrying a given data-testid. -/
def collectTestIdL (tid : String) : List Node → List Node
  | [] => []
  | c :: cs => collectTestId tid c ++ collectTestIdL tid cs

end

mutual

/-- Number of nodes in a tree whose class attribute equals a given value. -/
def countClass (c : String) : Node → Nat
  | .text _ => 0
  | .element _ attrs cs =>
      (if attrs.lookup "class" = some c then 1 else 0) + countClassL c cs

/-- Number of nodes in a forest whose class attribute equals a given value. -/
def countClassL (c : String) : List Node → Nat
  | [] => 0
  | n :: ns => countClass c n + countClassL c ns

end

mutual

/-- First node in a tree (preorder) whose class attribute equals a value. -/
def findClass (c : String) : Node → Option Node
  | .text s =>
      let _ := s
      none
  | .element tag attrs cs =>
      if attrs.lookup "class" = some c then some (.element tag attrs cs)
      else findClassL c cs

/-- First node in a forest (preorder) whose class attribute equals a value. -/
def findClassL (c : String) : List Node → Option Node
  | [] => none
  | n :: ns =>
      match findClass c n with
      | some m => some m
      | none => findClassL c ns

end

mutual

/-- Concatenated text content of a tree, as the DOM textContent property. -/
def textContent : Node → String
  | .text s => s
  | .element _ _ cs => textContentL cs

/-- Concatenated text content of a forest. -/
def textContentL : List Node → String
  | [] => ""
  | c :: cs => textContent c ++ textContentL cs

end

/-- The string React renders for a boolean attribute value. -/
def boolAttr (b : Bool) : String :=
  if b then "true" else "false"

/-- Decode the data-open attribute of a container back to the boolean it
received. -/
def containerOpen (n : Node) : Option Bool :=
  match attrVal n "data-open" with
  | some s => if s = "true" then some true else if s = "false" then some false else none
  | none => none

/-- Outcome of invoking a caller-supplied callback: normal return or a raised
exception carrying a message. -/
inductive CallbackResult where
  | ok
  | exn (msg : String)
deriving Repr, DecidableEq

/-- Invoke an optional callback with one argument, as the optional-chaining
call in the mocks.  Returns the list of arguments the callback was invoked
with and the exception it propagated, if any. -/
def invokeOpt (cb : Option (Bool → CallbackResult)) (arg : Bool) :
    List Bool × Option String :=
  match cb with
  | none => ([], none)
  | some f =>
      ([arg], match f arg with
              | .ok => none
              | .exn m => some m)

/-
  Mocked dialog and drawer primitives, translated from the jest.mock blocks
  of responsive-dialog.test.tsx (src/unnamed/part_000).
-/

/-- Dialog mock: a div with data-testid dialog and data-open reflecting the
open prop. -/
def Dialog (isOpen : Bool) (children : List Node) : Node :=
  .element "div" [("data-testid", "dialog"), ("data-open", boolAttr isOpen)] children

/-- DialogContent mock. -/
def DialogContent (children : List Node) : Node :=
  .element "div" [("data-testid", "dialog-content")] children

/-- DialogHeader mock. -/
def DialogHeader (children : List Node) : Node :=
  .element "div" [("data-testid", "dialog-header")] children

/-- DialogTitle mock: an h1 element. -/
def DialogTitle (children : List Node) : Node :=
  .element "h1" [("data-testid", "dialog-title")] children

/-- DialogDescription mock: a p element. -/
def DialogDescription (children : List Node) : Node :=
  .element "p" [("data-testid", "dialog-description")] children

/-- Drawer mock: a div with data-testid drawer and data-open reflecting the
open prop. -/
def Drawer (isOpen : Bool) (children : List Node) : Node :=
  .element "div" [("data-testid", "drawer"), ("data-open", boolAttr isOpen)] children

/-- DrawerContent mock. -/
def DrawerContent (children : List Node) : Node :=
  .element "div" [("data-testid", "drawer-content")] children

/-- DrawerHeader mock. -/
def DrawerHeader (children : List Node) : Node :=
  .element "div" [("data-testid", "drawer-header")] children

/-- DrawerTitle mock: an h1 element. -/
def DrawerTitle (children : List Node) : Node :=
  .element "h1" [("data-testid", "drawer-title")] children

/-- DrawerDescription mock: a p element. -/
def DrawerDescription (children : List Node) : Node :=
  .element "p" [("data-testid", "drawer-description")] children

/-- Click behaviour of the Dialog mock: onClick invokes onOpenChange, when
present, with the negation of the open prop. -/
def dialogOnClick (onOpenChange : Option (Bool → CallbackResult)) (isOpen : Bool) :
    List Bool × Option String :=
  invokeOpt onOpenChange (!isOpen)

/-- Click behaviour of the Drawer mock: onClick invokes onOpenChange, when
present, with the negation of the open prop. -/
def drawerOnClick (onOpenChange : Option (Bool → CallbackResult)) (isOpen : Bool) :
    List Bool × Option String :=
  invokeOpt onOpenChange (!isOpen)

/-- Props of the responsive dialog selector: title, description, body
content, and the visibility flag (the open prop; the notification callback is
handled by the click model). -/
structure ResponsiveDialogProps where
  title : String
  description : String
  children : List Node
  visible : Bool

/-- Modelled from the spec: the ResponsiveDialog component file
(responsive-dialog.tsx) is absent from the repository snapshot; only its test
file is present.  Per the spec contract for the Responsive Container
Selector: if isCompactViewport is true, render the bottom-anchored Drawer
variant whose content shows title and description as header content and
wraps the body content in a p-4 padded region; else render the centered
Dialog variant with the same header and body composition without the extra
padding wrapper; the visible flag passes through as the container open
state. -/
def ResponsiveDialog (isCompactViewport : Bool) (p : ResponsiveDialogProps) : Node :=
  if isCompactViewport then
    Drawer p.visible
      [DrawerContent
        [DrawerHeader [DrawerTitle [.text p.title], DrawerDescription [.text p.description]],
         Node.element "div" [("class", "p-4")] p.children]]
  else
    Dialog p.visible
      [DialogContent
        ([DialogHeader [DialogTitle [.text p.title], DialogDescription [.text p.description]]]
          ++ p.children)]

/-- Modelled from the spec: the active container of the selector forwards a
close/open request to the caller-supplied notification callback; the Drawer
handles the click when the viewport is compact, the Dialog otherwise. -/
def responsiveDialogOnClick (isCompactViewport : Bool)
    (onOpenChange : Option (Bool → CallbackResult)) (visible : Bool) :
    List Bool × Option String :=
  if isCompactViewport then drawerOnClick onOpenChange visible
  else dialogOnClick onOpenChange visible

/-- Rendered heading text of the active variant: text content of the
drawer-title node when compact, of the dialog-title node otherwise. -/
def headerTitle (isCompactViewport : Bool) (t : Node) : Option String :=
  (findTestId (if isCompactViewport then "drawer-title" else "dialog-title") t).map textContent

/-- Rendered description text of the active variant. -/
def headerDescription (isCompactViewport : Bool) (t : Node) : Option String :=
  (findTestId (if isCompactViewport then "drawer-description" else "dialog-description") t).map
    textContent

/-- Body region of the desktop variant: what follows the header inside
dialog-content. -/
def desktopBody (t : Node) : Option (List Node) :=
  (findTestId "dialog-content" t).map (fun n => (nodeChildren n).drop 1)

/-- Body region of the mobile variant: the children of the p-4 padded
wrapper. -/
def mobileBody (t : Node) : Option (List Node) :=
  (findClass "p-4" t).map nodeChildren

/-- Successive renders of the selector for a list of viewport signal
values, props held fixed. -/
def renderSequence (signals : List Bool) (p : ResponsiveDialogProps) : List Node :=
  signals.map (fun m => ResponsiveDialog m p)

/-
  DashboardCommand (src/src/modules/dashboard/ui/components/dashboard-command.tsx)
  and the mocked command primitives from its test file.  The open prop can be
  fed arbitrary JavaScript values in the Edge Cases tests, so prop values are
  embedded as a small JavaScript value type.
-/

/-- A JavaScript value as passed for the open prop in the tests: a boolean, a
number, a string, null, or undefined. -/
inductive JSVal where
  | bool (b : Bool)
  | num (n : Int)
  | str (s : String)
  | null
  | undef
deriving Repr, DecidableEq

/-- JavaScript toString coercion as invoked by the mock on the open prop:
defined for booleans, numbers and strings; throws a TypeError on null and
undefined. -/
def jsToString : JSVal → Except String String
  | .bool true => .ok "true"
  | .bool false => .ok "false"
  | .num n => .ok (toString n)
  | .str s => .ok s
  | .null => .error "TypeError: null has no toString"
  | .undef => .error "TypeError: undefined has no toString"

/-- CommandInput mock: an input with the forwarded placeholder. -/
def CommandInput (placeholder : String) : Node :=
  .element "input" [("data-testid", "command-input"), ("placeholder", placeholder)] []

/-- CommandItem mock: a div with role option. -/
def CommandItem (children : List Node) : Node :=
  .element "div" [("data-testid", "command-item"), ("role", "option")] children

/-- CommandList mock: a div with role listbox. -/
def CommandList (children : List Node) : Node :=
  .element "div" [("data-testid", "command-list"), ("role", "listbox")] children

/-- The close button the CommandResponsiveDialog mock appends after the
children. -/
def commandCloseButton : Node :=
  .element "button" [("data-testid", "close-button")] [.text "Close Dialog"]

/-- CommandResponsiveDialog mock: a div with data-open set to the result of
calling toString on the open prop (so rendering fails with a TypeError when
the open prop is null or undefined), holding the children followed by a
close button. -/
def CommandResponsiveDialog (openProp : JSVal) (children : List Node) :
    Except String Node :=
  (jsToString openProp).map fun s =>
    .element "div" [("data-testid", "command-dialog"), ("data-open", s)]
      (children ++ [commandCloseButton])

/-- Click behaviour of the mock close button: onOpenChange is invoked with
false only when it is present (the mock guards the call), so an absent
callback is a silent no-op. -/
def commandCloseClick (onOpenChange : Option (Bool → CallbackResult)) :
    List Bool × Option String :=
  invokeOpt onOpenChange false

/-- Props of DashboardCommand as typed in the source; the Edge Cases tests
pass raw JavaScript values for the open prop and a possibly absent setOpen. -/
structure DashboardCommandProps where
  openProp : JSVal
  setOpen : Option (Bool → CallbackResult)

/-- The arguments DashboardCommand hands to the underlying
CommandResponsiveDialog. -/
structure CommandDialogCall where
  openProp : JSVal
  onOpenChange : Option (Bool → CallbackResult)
  children : List Node

/-- The static children DashboardCommand renders inside the command dialog:
one input with the literal placeholder and a list of two fixed items. -/
def dashboardCommandChildren : List Node :=
  [CommandInput "Find a meeting or agnet",
   CommandList [CommandItem [.text "Test"], CommandItem [.text "Test2"]]]

/-- Translated from dashboard-command.tsx: the component forwards open and
setOpen unchanged to CommandResponsiveDialog and supplies the fixed static
children; it performs no validation or transformation of its props. -/
def DashboardCommand (p : DashboardCommandProps) : CommandDialogCall :=
  { openProp := p.openProp, onOpenChange := p.setOpen,
    children := dashboardCommandChildren }

/-- Render DashboardCommand through the CommandResponsiveDialog mock of the
test file. -/
def renderDashboardCommand (p : DashboardCommandProps) : Except String Node :=
  CommandResponsiveDialog (DashboardCommand p).openProp (DashboardCommand p).children

/-- Placeholders of all command-input nodes in a tree. -/
def placeholderTexts (t : Node) : List String :=
  (collectTestId "command-input" t).filterMap (fun n => attrVal n "placeholder")

/-- Text contents of all command-item nodes in a tree, in document order. -/
def itemTexts (t : Node) : List String :=
  (collectTestId "command-item" t).map textContent

/-
  The agents Page component (src/unnamed/part_001).  The page calls
  prefetchQuery and discards the resulting promise with void; the outcome of
  that prefetch is therefore an unused input of the render.
-/

/-- Outcome of the prefetch promise the page fires and discards. -/
inductive PrefetchOutcome where
  | success
  | pending
  | rejection
deriving Repr, DecidableEq

/-- Shape of the tree the agents page returns. -/
inductive PageTree where
  | hydrationBoundary (child : PageTree)
  | suspense (fallback : PageTree) (child : PageTree)
  | errorBoundary (fallback : PageTree) (child : PageTree)
  | agentsView
  | agentsViewLoading
  | agentsViewError
deriving Repr, DecidableEq

/-- Translated from the agents page: the prefetch promise is voided (neither
awaited nor error-handled), and the page returns a hydration boundary
wrapping a suspense boundary with the loading fallback wrapping an error
boundary with the error fallback around the agents view. -/
def Page (prefetchOutcome : PrefetchOutcome) : PageTree :=
  let _ := prefetchOutcome
  .hydrationBoundary
    (.suspense .agentsViewLoading (.errorBoundary .agentsViewError .agentsView))

/-
  Claim theorems.
-/

/-- C1: for every value of the viewport signal and every props combination
(whose body content does not itself carry the container test ids), one
render of the selector mounts exactly one of the two presentation
containers: the Dialog overlay when the signal is false, the Drawer sliding
container when it is true, never both and never neither. -/
theorem responsiveDialog_exactly_one_container (m : Bool) (p : ResponsiveDialogProps)
    (hd : countTestIdL "dialog" p.children = 0)
    (hw : countTestIdL "drawer" p.children = 0) :
    countTestId "dialog" (ResponsiveDialog m p) = (if m then 0 else 1) ∧
    countTestId "drawer" (ResponsiveDialog m p) = (if m then 1 else 0) := by
  cases m <;>
    simp [ResponsiveDialog, Dialog, DialogContent, DialogHeader, DialogTitle, DialogDescription,
      Drawer, DrawerContent, DrawerHeader, DrawerTitle, DrawerDescription,
      countTestId, countTestIdL, hd, hw, List.lookup]

/-- Witness for C1 at the default props of the test file, in the desktop
variant. -/
theorem responsiveDialog_exactly_one_container_witness :
    countTestIdL "dialog"
        [Node.element "div" [("data-testid", "dialog-children")] [Node.text "Dialog Content"]] = 0 ∧
    countTestId "dialog"
        (ResponsiveDialog false
          { title := "Test Title", description := "Test Description",
            children := [Node.element "div" [("data-testid", "dialog-children")]
              [Node.text "Dialog Content"]],
            visible := true }) = 1 := by
  refine ⟨by simp [countTestIdL, countTestId, List.lookup], ?_⟩
  have h := responsiveDialog_exactly_one_container false
    { title := "Test Title", description := "Test Description",
      children := [Node.element "div" [("data-testid", "dialog-children")]
        [Node.text "Dialog Content"]],
      visible := true }
    (by simp [countTestIdL, countTestId, List.lookup])
    (by simp [countTestIdL, countTestId, List.lookup])
  simpa using h.1

/-- C2: for every value of visible and of the viewport signal, the open
state the active container receives (its data-open attribute, decoded)
equals visible exactly, with no transformation; the active container is the
Drawer when the signal is true and the Dialog otherwise. -/
theorem responsiveDialog_open_passthrough (m : Bool) (p : ResponsiveDialogProps) :
    containerOpen (ResponsiveDialog m p) = some p.visible ∧
    rootTestId (ResponsiveDialog m p) = some (if m then "drawer" else "dialog") := by
  cases m <;> cases h : p.visible <;>
    simp [ResponsiveDialog, Dialog, Drawer, containerOpen, rootTestId, attrVal, boolAttr, h,
      List.lookup]

/-- C3: when the active container signals a close request while visible is
true, the onOpenChange callback is invoked exactly once, with the argument
false, in both the overlay and the sliding variant. -/
theorem responsiveDialog_close_notifies_once (m : Bool) (cb : Bool → CallbackResult) :
    (responsiveDialogOnClick m (some cb) true).1 = [false] := by
  cases m <;> simp [responsiveDialogOnClick, dialogOnClick, drawerOnClick, invokeOpt]

/-- C4: in both variants, a close/open request with no onOpenChange callback
supplied is a silent no-op that raises nothing, and when the supplied
callback itself raises, the exception propagates to the caller unmodified
after the single invocation. -/
theorem responsiveDialog_callback_handling :
    (∀ (m v : Bool), responsiveDialogOnClick m none v = ([], none)) ∧
    (∀ (m v : Bool) (cb : Bool → CallbackResult) (msg : String),
      cb (!v) = CallbackResult.exn msg →
      responsiveDialogOnClick m (some cb) v = ([!v], some msg)) := by
  constructor
  · intro m v
    cases m <;> simp [responsiveDialogOnClick, dialogOnClick, drawerOnClick, invokeOpt]
  · intro m v cb msg hcb
    cases m <;> simp [responsiveDialogOnClick, dialogOnClick, drawerOnClick, invokeOpt, hcb]

/-- Witness for C4: an absent callback is a no-op, and a callback that
raises has its exception propagated verbatim. -/
theorem responsiveDialog_callback_handling_witness :
    responsiveDialogOnClick false none true = ([], none) ∧
    responsiveDialogOnClick false (some fun _ => CallbackResult.exn "Callback error") true
      = ([false], some "Callback error") :=
  ⟨responsiveDialog_callback_handling.1 false true,
   responsiveDialog_callback_handling.2 false true _ "Callback error" rfl⟩

/-- C5: when the viewport signal is true the body content sits inside one
p-4 padded wrapper in the drawer (and the wrapper holds exactly the body
content), while the desktop dialog renders without any p-4 wrapper, provided
the body content itself carries none. -/
theorem responsiveDialog_padding (p : ResponsiveDialogProps)
    (h : countClassL "p-4" p.children = 0) :
    countClass "p-4" (ResponsiveDialog true p) = 1 ∧
    countClass "p-4" (ResponsiveDialog false p) = 0 ∧
    (findClass "p-4" (ResponsiveDialog true p)).map nodeChildren = some p.children := by
  refine ⟨?_, ?_, ?_⟩
  · simp [ResponsiveDialog, Drawer, DrawerContent, DrawerHeader, DrawerTitle, DrawerDescription,
      countClass, countClassL, h, List.lookup]
  · simp [ResponsiveDialog, Dialog, DialogContent, DialogHeader, DialogTitle, DialogDescription,
      countClass, countClassL, h, List.lookup]
  · simp [ResponsiveDialog, Drawer, DrawerContent, DrawerHeader, DrawerTitle, DrawerDescription,
      findClass, findClassL, nodeChildren, List.lookup]

/-- Witness for C5 at the default props of the test file, in the mobile
variant. -/
theorem responsiveDialog_padding_witness :
    countClassL "p-4"
        [Node.element "div" [("data-testid", "dialog-children")] [Node.text "Dialog Content"]] = 0 ∧
    countClass "p-4"
      (ResponsiveDialog true
        { title := "Test Title", description := "Test Description",
          children := [Node.element "div" [("data-testid", "dialog-children")]
            [Node.text "Dialog Content"]],
          visible := true }) = 1 := by
  refine ⟨by simp [countClassL, countClass, List.lookup], ?_⟩
  exact (responsiveDialog_padding _ (by simp [countClassL, countClass, List.lookup])).1

/-- C6: rendering with the viewport signal false, then true, then false
(props fixed) mounts dialog, drawer, dialog in turn, the final render equals
the first, and each variant shows the same title, description and body
content. -/
theorem responsiveDialog_viewport_roundtrip (p : ResponsiveDialogProps) :
    (renderSequence [false, true, false] p).map rootTestId
      = [some "dialog", some "drawer", some "dialog"] ∧
    (renderSequence [false, true, false] p).getLast?
      = (renderSequence [false, true, false] p).head? ∧
    headerTitle false (ResponsiveDialog false p) = some p.title ∧
    headerTitle true (ResponsiveDialog true p) = some p.title ∧
    headerDescription false (ResponsiveDialog false p) = some p.description ∧
    headerDescription true (ResponsiveDialog true p) = some p.description ∧
    desktopBody (ResponsiveDialog false p) = some p.children ∧
    mobileBody (ResponsiveDialog true p) = some p.children := by
  refine ⟨?_, ?_, ?_, ?_, ?_, ?_, ?_, ?_⟩ <;>
    simp [renderSequence, ResponsiveDialog, Dialog, DialogContent, DialogHeader, DialogTitle,
      DialogDescription, Drawer, DrawerContent, DrawerHeader, DrawerTitle, DrawerDescription,
      rootTestId, attrVal, headerTitle, headerDescription, findTestId, findTestIdL,
      textContent, textContentL, desktopBody, mobileBody, findClass, findClassL, nodeChildren,
      List.lookup]

/-- C7: for every title and description string (empty, long, or containing
markup-special characters alike) the rendered heading and description text
of the active variant equals the input verbatim, in both variants. -/
theorem responsiveDialog_text_verbatim (m : Bool) (p : ResponsiveDialogProps) :
    headerTitle m (ResponsiveDialog m p) = some p.title ∧
    headerDescription m (ResponsiveDialog m p) = some p.description := by
  cases m <;>
    simp [ResponsiveDialog, Dialog, DialogContent, DialogHeader, DialogTitle, DialogDescription,
      Drawer, DrawerContent, DrawerHeader, DrawerTitle, DrawerDescription,
      headerTitle, headerDescription, findTestId, findTestIdL, textContent, textContentL,
      List.lookup]

/-- C8: for every boolean open flag and every setOpen callback, the rendered
DashboardCommand holds exactly one text input, whose placeholder is the
literal string Find a meeting or agnet, and exactly two selectable rows with
texts Test and Test2 in that order. -/
theorem dashboardCommand_static_content (b : Bool) (s : Option (Bool → CallbackResult)) :
    (renderDashboardCommand { openProp := JSVal.bool b, setOpen := s }).map
      (fun t => (placeholderTexts t, itemTexts t)) =
    Except.ok (["Find a meeting or agnet"], ["Test", "Test2"]) := by
  cases b <;>
    simp [renderDashboardCommand, DashboardCommand, CommandResponsiveDialog, jsToString,
      dashboardCommandChildren, CommandInput, CommandList, CommandItem, commandCloseButton,
      placeholderTexts, itemTexts, collectTestId, collectTestIdL, attrVal, textContent,
      textContentL, Except.map, List.lookup]

/-- C9: DashboardCommand forwards the raw open and setOpen values unchanged
with no validation, and a close click with an absent callback is a no-op;
however, rendering through the CommandResponsiveDialog mock of its own test
file raises a TypeError when the open prop is undefined or null, because the
mock stringifies the open prop, contradicting the Edge Cases tests that
assert rendering does not throw there. -/
theorem dashboardCommand_raw_forwarding_and_stringify_throw :
    (∀ (v : JSVal) (s : Option (Bool → CallbackResult)),
        (DashboardCommand { openProp := v, setOpen := s }).openProp = v ∧
        (DashboardCommand { openProp := v, setOpen := s }).onOpenChange = s) ∧
    renderDashboardCommand { openProp := JSVal.undef, setOpen := none }
      = Except.error "TypeError: undefined has no toString" ∧
    renderDashboardCommand { openProp := JSVal.null, setOpen := none }
      = Except.error "TypeError: null has no toString" ∧
    commandCloseClick none = ([], none) := by
  refine ⟨fun v s => ⟨rfl, rfl⟩, ?_, ?_, rfl⟩ <;>
    simp [renderDashboardCommand, DashboardCommand, CommandResponsiveDialog, jsToString,
      Except.map]

/-- C10: the agents page discards the prefetch outcome, so every outcome
(success, pending, rejection) yields the same returned tree: a hydration
boundary wrapping a suspense boundary with the loading fallback wrapping an
error boundary with the error fallback around the agents view. -/
theorem page_prefetch_discarded :
    (∀ o₁ o₂ : PrefetchOutcome, Page o₁ = Page o₂) ∧
    (∀ o : PrefetchOutcome,
      Page o =
        PageTree.hydrationBoundary
          (.suspense .agentsViewLoading (.errorBoundary .agentsViewError .agentsView))) :=
  ⟨fun _ _ => rfl, fun _ => rfl⟩

end MeetAI
